import Mathlib

/-
Shallow embedding of the soap-to-swagger conversion core:
  wsdl_parser.py  (class WSDLParser)
  swagger_generator.py (class SwaggerGenerator)

XML documents are modelled as ordered trees of elements (tag, attributes,
text, children).  Tags are stored with their resolved namespace prefix
(for example "wsdl:operation"); the four fixed prefix bindings of the
parser (wsdl, soap, soap12, xsd) are constants, so matching on the
prefixed literal is equivalent to matching on the resolved namespace
name.  The dynamic "tns" binding is never used by any XPath expression
of the source, but lxml validates every entry of the namespaces mapping
on each xpath call and raises TypeError for a None (or empty) URI, which
the model reproduces.

Python values that may be None are modelled as Option; Python dicts are
modelled as association lists with insert-or-replace-in-place semantics
(dictInsert below), matching dict assignment.
-/

/-- An XML element: tag (with resolved namespace prefix), attributes in
document order, text content (None when the element has no text), and
child elements in document order. -/
inductive XNode where
  | mk (tag : String) (attrs : List (String × String)) (text : Option String)
       (children : List XNode)

def XNode.tag : XNode → String
  | .mk t _ _ _ => t

def XNode.attrs : XNode → List (String × String)
  | .mk _ a _ _ => a

def XNode.text : XNode → Option String
  | .mk _ _ tx _ => tx

def XNode.children : XNode → List XNode
  | .mk _ _ _ cs => cs

mutual

/-- All proper descendants of a node, in document (preorder) order. -/
def XNode.descendants : XNode → List XNode
  | .mk _ _ _ cs => XNode.descendantsOfList cs

/-- All members of the list together with their descendants, preorder. -/
def XNode.descendantsOfList : List XNode → List XNode
  | [] => []
  | c :: cs => c :: (XNode.descendants c ++ XNode.descendantsOfList cs)

end

/-- Model of the XPath query `.//tag` relative to a node: all proper
descendants carrying the tag, in document order. -/
def xfindDesc (t : String) (n : XNode) : List XNode :=
  n.descendants.filter (fun c => c.tag == t)

/-- Model of the XPath query `//tag` evaluated from the document root:
descendant-or-self elements carrying the tag, in document order. -/
def xfindAll (t : String) (root : XNode) : List XNode :=
  (root :: root.descendants).filter (fun c => c.tag == t)

/-- Model of `element.get(key)` on an lxml element: the attribute value,
None when the attribute is absent. -/
def xattr (n : XNode) (k : String) : Option String :=
  (n.attrs.find? (fun p => p.1 == k)).map (fun p => p.2)

/-- Model of `element.get(key, default)`. -/
def xattrD (n : XNode) (k : String) (d : String) : String :=
  (xattr n k).getD d

/-- Python truthiness of a str-or-None value: None and the empty string
are falsy. -/
def pyTruthy : Option String → Bool
  | none => false
  | some s => !s.isEmpty

/-- Python `a or b` for a str-or-None `a` and a str default `b`. -/
def pyOrStr (a : Option String) (b : String) : String :=
  match a with
  | some s => if s.isEmpty then b else s
  | none => b

/-- Python `str(x)` rendering of a str-or-None value, as interpolated by
an f-string: None renders as the literal "None". -/
def pyStr : Option String → String
  | none => "None"
  | some s => s

/-- Character containment (`c in s`), computed on the character list so
that it reduces structurally. -/
def strContains (s : String) (c : Char) : Bool :=
  s.data.contains c

/-- Python `s.lower()` for the ASCII names of interest, computed on the
character list. -/
def strToLower (s : String) : String :=
  String.mk (s.data.map Char.toLower)

/-- Python `s.strip()`: whitespace removed from both ends, computed on
the character list. -/
def pyStrip (s : String) : String :=
  String.mk (((s.data.dropWhile Char.isWhitespace).reverse.dropWhile
    Char.isWhitespace).reverse)

/-- Drop the first n characters. -/
def strDrop (s : String) (n : Nat) : String :=
  String.mk (s.data.drop n)

/-- The longest prefix whose characters satisfy p. -/
def strTakeWhile (s : String) (p : Char → Bool) : String :=
  String.mk (s.data.takeWhile p)

/-- The numeric value of an all-digit string (callers guard with
pyIsDigit first, mirroring `int(s)` after `s.isdigit()`). -/
def pyToNatDigits (s : String) : Nat :=
  s.data.foldl (fun n c => n * 10 + (c.toNat - 48)) 0

/-- Python `s.split(":")[1]` guarded by `":" in s`: the fragment between
the first and second colon. -/
def pySplitColonSecond (s : String) : String :=
  String.mk ((((s.data.dropWhile (fun c => c != ':')).drop 1)).takeWhile
    (fun c => c != ':'))

/-- Python dict assignment `m[k] = v`: replace the value in place when
the key is present (position preserved), otherwise append. -/
def dictInsert {α β : Type} [BEq α] (m : List (α × β)) (k : α) (v : β) :
    List (α × β) :=
  if m.any (fun p => p.1 == k) then
    m.map (fun p => if p.1 == k then (k, v) else p)
  else
    m ++ [(k, v)]

/-- Folding dict assignments over a list of key-value events. -/
def dictOfEvents {α β : Type} [BEq α] (l : List (α × β))
    (init : List (α × β)) : List (α × β) :=
  l.foldl (fun acc kv => dictInsert acc kv.1 kv.2) init

/-- Python `s.isdigit()` restricted to ASCII digits (all inputs of
interest are ASCII). -/
def pyIsDigit (s : String) : Bool :=
  !s.data.isEmpty && s.data.all Char.isDigit

/-! ## Scalar type mappers (two tables in the source) -/

/-- The lookup table of `WSDLParser._map_xsd_type`, verbatim from the
source, including the mixed-case keys. -/
def xsdTypeTable : List (String × String) :=
  [("string", "string"),
   ("int", "integer"),
   ("integer", "integer"),
   ("long", "integer"),
   ("short", "integer"),
   ("byte", "integer"),
   ("double", "number"),
   ("float", "number"),
   ("decimal", "number"),
   ("boolean", "boolean"),
   ("date", "string"),
   ("dateTime", "string"),
   ("time", "string"),
   ("base64Binary", "string"),
   ("hexBinary", "string"),
   ("anyURI", "string")]

/-- Embeds `WSDLParser._map_xsd_type`: falsy input gives "string", otherwise the
namespace prefix is stripped, the name lower-cased, and looked up in the
table with default "string".  All call sites pass a str (never None). -/
def mapXsdType (xsdType : String) : String :=
  if xsdType.isEmpty then "string"
  else
    let t := if strContains xsdType ':' then pySplitColonSecond xsdType else xsdType
    ((xsdTypeTable.lookup (strToLower t)).getD "string")

/-- An OpenAPI scalar schema produced by `_map_type_to_openapi`: a type
string and an optional format. -/
structure PropSchema where
  type : String
  format : Option String := none
deriving DecidableEq

/-- The lookup table of `SwaggerGenerator._map_type_to_openapi`, verbatim
from the source, including the mixed-case keys. -/
def openapiTypeTable : List (String × PropSchema) :=
  [("string", { type := "string" }),
   ("int", { type := "integer", format := some "int32" }),
   ("integer", { type := "integer" }),
   ("long", { type := "integer", format := some "int64" }),
   ("short", { type := "integer", format := some "int32" }),
   ("byte", { type := "integer", format := some "int32" }),
   ("double", { type := "number", format := some "double" }),
   ("float", { type := "number", format := some "float" }),
   ("decimal", { type := "number" }),
   ("boolean", { type := "boolean" }),
   ("date", { type := "string", format := some "date" }),
   ("dateTime", { type := "string", format := some "date-time" }),
   ("time", { type := "string", format := some "time" }),
   ("base64Binary", { type := "string", format := some "byte" }),
   ("hexBinary", { type := "string", format := some "binary" }),
   ("anyURI", { type := "string", format := some "uri" })]

/-- Embeds `SwaggerGenerator._map_type_to_openapi`: the argument can be a str or
None (the generator passes `part.get(type) or part.get(element, default)`),
falsy input gives the plain string schema; otherwise strip the prefix,
lower-case, look up with a plain string schema as default. -/
def mapTypeToOpenapi (wsdlType : Option String) : PropSchema :=
  match wsdlType with
  | none => { type := "string" }
  | some s =>
    if s.isEmpty then { type := "string" }
    else
      let t := if strContains s ':' then pySplitColonSecond s else s
      ((openapiTypeTable.lookup (strToLower t)).getD { type := "string" })

/-! ## Parser data model (the dicts built by WSDLParser) -/

/-- One entry of `_parse_message` parts: the dict always carries the
three keys, each value possibly None. -/
structure PartInfo where
  name : Option String
  element : Option String
  type : Option String
deriving DecidableEq

/-- Result of `_parse_message`. -/
structure MessageInfo where
  name : Option String
  parts : List PartInfo
deriving DecidableEq

/-- One entry of `_extract_faults`. -/
structure FaultInfo where
  name : Option String
  message : Option String
  documentation : Option String
deriving DecidableEq

/-- One entry of `_extract_operations`. -/
structure Operation where
  name : Option String
  documentation : Option String
  input : Option MessageInfo
  output : Option MessageInfo
  faults : List FaultInfo
deriving DecidableEq

/-- A property recorded by `_parse_complex_type`. -/
structure CtProp where
  type : String
  required : Bool
  array : Bool
deriving DecidableEq

/-- A value of the type catalog (`_extract_types`): the three dict shapes
produced by `_parse_complex_type`, `_parse_simple_type` (with and without
a restriction child) and `_parse_element`.  Property keys are the part
element names, possibly None. -/
inductive TypeDef where
  | complex (properties : List (Option String × CtProp))
  | simple (type : String) (base : String)
  | simpleDefault
  | element (type : String) (xmlType : String)
deriving DecidableEq

/-- One entry of `_extract_binding_operations`. -/
structure BindingOp where
  name : Option String
  soapAction : String
deriving DecidableEq

/-- One entry of `_extract_bindings`. -/
structure BindingInfo where
  name : Option String
  type : Option String
  transport : String
  style : String
  operations : List BindingOp
deriving DecidableEq

/-- One entry of a service ports list (`_extract_services`).  The
location is None when a SOAP address element exists but has no location
attribute, and the empty string when no address element exists. -/
structure ServicePort where
  name : Option String
  binding : Option String
  location : Option String
deriving DecidableEq

/-- One entry of `_extract_services`. -/
structure ServiceEP where
  name : Option String
  ports : List ServicePort
  documentation : Option String
deriving DecidableEq

/-- The dict returned by `WSDLParser.parse` on success. -/
structure ServiceInfo where
  name : String
  description : String
  targetNamespace : Option String
  operations : List Operation
  types : List (String × TypeDef)
  bindings : List BindingInfo
  services : List ServiceEP
deriving DecidableEq

/-! ## Exceptions and namespace state -/

/-- Internal exceptions that can arise inside the try block of `parse`:
the lxml syntax error raised by `etree.fromstring`, the TypeError raised
by lxml when the namespaces mapping holds a None URI, and the
XPathEvalError raised when an interpolated message name breaks the XPath
string literal. -/
inductive PyExc where
  | xmlSyntax (msg : String)
  | typeError (msg : String)
  | xpathEval (msg : String)
deriving DecidableEq

/-- The only exception type escaping `WSDLParser.parse`. -/
inductive PyError where
  | valueError (msg : String)
deriving DecidableEq

/-- Decidable equality for Except outcomes of the parse model. -/
instance {e a : Type} [DecidableEq e] [DecidableEq a] : DecidableEq (Except e a) :=
  fun x y =>
    match x, y with
    | .ok v, .ok w =>
      if h : v = w then isTrue (by rw [h])
      else isFalse (by intro hc; cases hc; exact h rfl)
    | .error u, .error w =>
      if h : u = w then isTrue (by rw [h])
      else isFalse (by intro hc; cases hc; exact h rfl)
    | .ok _, .error _ => isFalse (by intro hc; cases hc)
    | .error _, .ok _ => isFalse (by intro hc; cases hc)

/-- The four fixed prefix bindings of `WSDLParser.__init__`. -/
def wsdlNsUri : String := "http://schemas.xmlsoap.org/wsdl/"

def soapNsUri : String := "http://schemas.xmlsoap.org/wsdl/soap/"

def soap12NsUri : String := "http://schemas.xmlsoap.org/wsdl/soap12/"

def xsdNsUri : String := "http://www.w3.org/2001/XMLSchema"

/-- The mutable part of `self.namespaces`: the dynamic tns binding (the
four fixed bindings above are never changed).  Initially None. -/
structure Namespaces where
  tns : Option String
deriving DecidableEq

def initNamespaces : Namespaces := { tns := none }

/-- lxml validates every entry of the namespaces mapping on each xpath
call and raises TypeError when a URI is None or empty.  Every xpath call
of the parser passes `namespaces=self.namespaces`, so each one performs
this check.  The real diagnostic reads Argument must be bytes or
unicode, got NoneType (with the type name quoted); the quotes are
elided here and no theorem observes this text, only the exception kind
and its ValueError prefix. -/
def xpathNsCheck (ns : Namespaces) : Except PyExc Unit :=
  match ns.tns with
  | none => .error (.typeError "Argument must be bytes or unicode, got NoneType")
  | some u =>
    if u.isEmpty then
      .error (.typeError "Argument must be bytes or unicode, got NoneType")
    else .ok ()

/-! ## Parser helper functions -/

/-- Pure core of `_get_service_name`. -/
def serviceNameOf (root : XNode) : String :=
  match xfindAll "wsdl:service" root with
  | s :: _ => xattrD s "name" "UnknownService"
  | [] => "UnknownService"

/-- Embeds `_get_service_name` including the namespaces check of its xpath call. -/
def getServiceName (ns : Namespaces) (root : XNode) : Except PyExc String := do
  xpathNsCheck ns
  pure (serviceNameOf root)

/-- Pure core of `_get_service_description`: the text of the first
documentation element anywhere in the document, `or`-defaulted to the
literal "No description available"; the literal
"SOAP Web Service converted from WSDL" when none exists.  The text is
not trimmed. -/
def serviceDescriptionOf (root : XNode) : String :=
  match xfindAll "wsdl:documentation" root with
  | d :: _ => pyOrStr d.text "No description available"
  | [] => "SOAP Web Service converted from WSDL"

/-- Embeds `_get_service_description` including the namespaces check. -/
def getServiceDescription (ns : Namespaces) (root : XNode) : Except PyExc String := do
  xpathNsCheck ns
  pure (serviceDescriptionOf root)

/-- Pure core of `_get_element_documentation`: first nested documentation
element with truthy text, stripped; None otherwise. -/
def elementDocumentationOf (element : XNode) : Option String :=
  match xfindDesc "wsdl:documentation" element with
  | d :: _ =>
    match d.text with
    | some t => if t.isEmpty then none else some (pyStrip t)
    | none => none
  | [] => none

/-- Embeds `_get_element_documentation` including the namespaces check. -/
def getElementDocumentation (ns : Namespaces) (element : XNode) :
    Except PyExc (Option String) := do
  xpathNsCheck ns
  pure (elementDocumentationOf element)

/-- Pure core of `_parse_message`. -/
def parseMessageOf (message : XNode) : MessageInfo :=
  { name := xattr message "name",
    parts := (xfindDesc "wsdl:part" message).map (fun p =>
      { name := xattr p "name",
        element := xattr p "element",
        type := xattr p "type" }) }

/-- Embeds `_parse_message` including the namespaces check of its xpath call. -/
def parseMessage (ns : Namespaces) (message : XNode) : Except PyExc MessageInfo := do
  xpathNsCheck ns
  pure (parseMessageOf message)

/-- Embeds `_extract_message_info`: resolve the input or output message of an
operation.  The message attribute is prefix-stripped and interpolated
into the XPath string literal `//wsdl:message[@name="..."]`; a name
containing a double quote breaks the literal and lxml raises
XPathEvalError.  The model raises for every quote-containing name; a
crafted name that reconstitutes a syntactically valid XPath predicate
would instead run the injected query in the program — that sliver is not
modelled, and the failing input evaluated by the theorems is one whose
interpolation is genuinely unparsable.  A missing element, attribute or
message yields None. -/
def extractMessageInfo (ns : Namespaces) (root : XNode) (operation : XNode)
    (msgType : String) : Except PyExc (Option MessageInfo) := do
  xpathNsCheck ns
  match xfindDesc ("wsdl:" ++ msgType) operation with
  | [] => pure none
  | msgElement :: _ =>
    match xattr msgElement "message" with
    | none => pure none
    | some raw =>
      if raw.isEmpty then pure none
      else
        let msgName := if strContains raw ':' then pySplitColonSecond raw else raw
        if strContains msgName '"' then
          .error (.xpathEval "Invalid expression")
        else do
          xpathNsCheck ns
          match (xfindAll "wsdl:message" root).filter
              (fun m => xattr m "name" == some msgName) with
          | [] => pure none
          | found :: _ => do
            let parsed ← parseMessage ns found
            pure (some parsed)

/-- Embeds `_extract_faults`. -/
def extractFaults (ns : Namespaces) (operation : XNode) :
    Except PyExc (List FaultInfo) := do
  xpathNsCheck ns
  (xfindDesc "wsdl:fault" operation).mapM (fun f => do
    let docu ← getElementDocumentation ns f
    pure { name := xattr f "name",
           message := xattr f "message",
           documentation := docu })

/-- Embeds `_extract_operations`: all operations of all port types, in document
order, without deduplication. -/
def extractOperations (ns : Namespaces) (root : XNode) :
    Except PyExc (List Operation) := do
  xpathNsCheck ns
  let portTypes := xfindAll "wsdl:portType" root
  let opss ← portTypes.mapM (fun pt => do
    xpathNsCheck ns
    (xfindDesc "wsdl:operation" pt).mapM (fun op => do
      let docu ← getElementDocumentation ns op
      let inp ← extractMessageInfo ns root op "input"
      let outp ← extractMessageInfo ns root op "output"
      let fls ← extractFaults ns op
      pure { name := xattr op "name",
             documentation := docu,
             input := inp,
             output := outp,
             faults := fls }))
  pure opss.flatten

/-! ## Type catalog (`_extract_types` and its helpers) -/

/-- Whether `maxOccurs` makes a property an array:
whether max_occurs is the word unbounded, or an all-digit string whose value exceeds 1. -/
def isArrayOccurs (maxOccurs : String) : Bool :=
  maxOccurs == "unbounded" || (pyIsDigit maxOccurs && pyToNatDigits maxOccurs > 1)

/-- Embeds `_parse_complex_type`: walk all descendant sequence nodes, then all
descendant element nodes of each, one property per element keyed by the
element name attribute (possibly None), dict semantics. -/
def parseComplexTypeOf (complexType : XNode) : TypeDef :=
  let properties :=
    (xfindDesc "xsd:sequence" complexType).foldl (fun acc seq =>
      (xfindDesc "xsd:element" seq).foldl (fun acc2 elem =>
        let propName := xattr elem "name"
        let propType := xattrD elem "type" "string"
        let minOccurs := xattrD elem "minOccurs" "1"
        let maxOccurs := xattrD elem "maxOccurs" "1"
        dictInsert acc2 propName
          { type := mapXsdType propType,
            required := minOccurs != "0",
            array := isArrayOccurs maxOccurs }) acc) []
  .complex properties

/-- Embeds `_parse_simple_type`: the base attribute of the first descendant
restriction element, defaulted to "string"; the bare string schema when
no restriction exists. -/
def parseSimpleTypeOf (simpleType : XNode) : TypeDef :=
  match xfindDesc "xsd:restriction" simpleType with
  | r :: _ =>
    let baseType := xattrD r "base" "string"
    .simple (mapXsdType baseType) baseType
  | [] => .simpleDefault

/-- Embeds `_parse_element`. -/
def parseElementOf (element : XNode) : TypeDef :=
  let elemType := xattrD element "type" "string"
  .element (mapXsdType elemType) elemType

/-- The insertion events of one schema, in the processing order of
`_extract_types`: all descendant complex types, then all descendant
simple types, then all descendant elements (each group in document
order); entries with a falsy name attribute are skipped. -/
def schemaTypeEvents (schema : XNode) : List (String × TypeDef) :=
  ((xfindDesc "xsd:complexType" schema).filterMap (fun ct =>
      match xattr ct "name" with
      | some n => if n.isEmpty then none else some (n, parseComplexTypeOf ct)
      | none => none))
  ++ ((xfindDesc "xsd:simpleType" schema).filterMap (fun st =>
      match xattr st "name" with
      | some n => if n.isEmpty then none else some (n, parseSimpleTypeOf st)
      | none => none))
  ++ ((xfindDesc "xsd:element" schema).filterMap (fun elem =>
      match xattr elem "name" with
      | some n => if n.isEmpty then none else some (n, parseElementOf elem)
      | none => none))

/-- The insertion events of the whole document: schemas in document
order. -/
def allTypeEvents (root : XNode) : List (String × TypeDef) :=
  (xfindAll "xsd:schema" root).flatMap schemaTypeEvents

/-- Pure core of `_extract_types`: the three per-schema loops perform
dict assignments in exactly the order of `schemaTypeEvents`. -/
def extractTypesOf (root : XNode) : List (String × TypeDef) :=
  (xfindAll "xsd:schema" root).foldl (fun acc schema =>
    dictOfEvents (schemaTypeEvents schema) acc) []

/-- Embeds `_extract_types` including the namespaces checks of its xpath calls
(all checks are identical, one per call, each failing exactly when the
tns binding is None or empty). -/
def extractTypes (ns : Namespaces) (root : XNode) :
    Except PyExc (List (String × TypeDef)) := do
  xpathNsCheck ns
  pure (extractTypesOf root)

/-! ## Bindings and services -/

/-- Pure core of `_get_soap_transport`. -/
def soapTransportOf (binding : XNode) : String :=
  match xfindDesc "soap:binding" binding with
  | b :: _ => xattrD b "transport" "http://schemas.xmlsoap.org/soap/http"
  | [] => "http://schemas.xmlsoap.org/soap/http"

/-- Pure core of `_get_soap_style`. -/
def soapStyleOf (binding : XNode) : String :=
  match xfindDesc "soap:binding" binding with
  | b :: _ => xattrD b "style" "document"
  | [] => "document"

/-- Pure core of `_extract_binding_operations`. -/
def bindingOperationsOf (binding : XNode) : List BindingOp :=
  (xfindDesc "wsdl:operation" binding).map (fun op =>
    let soapAction :=
      match xfindDesc "soap:operation" op with
      | s :: _ => xattrD s "soapAction" ""
      | [] => ""
    { name := xattr op "name", soapAction := soapAction })

/-- Pure core of `_extract_bindings`. -/
def extractBindingsOf (root : XNode) : List BindingInfo :=
  (xfindAll "wsdl:binding" root).map (fun b =>
    { name := xattr b "name",
      type := xattr b "type",
      transport := soapTransportOf b,
      style := soapStyleOf b,
      operations := bindingOperationsOf b })

/-- Embeds `_extract_bindings` including the namespaces check. -/
def extractBindings (ns : Namespaces) (root : XNode) :
    Except PyExc (List BindingInfo) := do
  xpathNsCheck ns
  pure (extractBindingsOf root)

/-- Pure core of `_extract_services`: the port location is the location
attribute of the first SOAP 1.1 address if any address exists (falling
back to SOAP 1.2 addresses when there is no SOAP 1.1 address), and the
empty string when no address element exists. -/
def extractServicesOf (root : XNode) : List ServiceEP :=
  (xfindAll "wsdl:service" root).map (fun service =>
    let ports := (xfindDesc "wsdl:port" service).map (fun port =>
      let addresses :=
        match xfindDesc "soap:address" port with
        | [] => xfindDesc "soap12:address" port
        | a => a
      let location :=
        match addresses with
        | a :: _ => xattr a "location"
        | [] => some ""
      { name := xattr port "name",
        binding := xattr port "binding",
        location := location })
    { name := xattr service "name",
      ports := ports,
      documentation := elementDocumentationOf service })

/-- Embeds `_extract_services` including the namespaces check. -/
def extractServices (ns : Namespaces) (root : XNode) :
    Except PyExc (List ServiceEP) := do
  xpathNsCheck ns
  pure (extractServicesOf root)

/-! ## Top level parse -/

/-- The raw text handed to `parse`: either malformed XML (in which case
`etree.fromstring` raises XMLSyntaxError with the given diagnostic) or a
well-formed document with the given root element. -/
inductive Input where
  | malformed (errMsg : String)
  | wellFormed (root : XNode)

/-- The body of the try block of `WSDLParser.parse`, with the instance
state `self.namespaces` threaded explicitly: parse the XML, update the
tns binding when the root carries a truthy targetNamespace (leaving any
previous binding in place otherwise), then build the service info dict.
The dict fields are evaluated in source order; the first raising helper
aborts. -/
def parseRaw (ns : Namespaces) (input : Input) :
    Namespaces × Except PyExc ServiceInfo :=
  match input with
  | .malformed m => (ns, .error (.xmlSyntax m))
  | .wellFormed root =>
    let targetNs := xattr root "targetNamespace"
    let ns1 := if pyTruthy targetNs then { tns := targetNs } else ns
    (ns1, do
      let name ← getServiceName ns1 root
      let description ← getServiceDescription ns1 root
      let operations ← extractOperations ns1 root
      let types ← extractTypes ns1 root
      let bindings ← extractBindings ns1 root
      let services ← extractServices ns1 root
      pure { name := name,
             description := description,
             targetNamespace := targetNs,
             operations := operations,
             types := types,
             bindings := bindings,
             services := services })

/-- The except clauses of `parse`: XMLSyntaxError becomes
`ValueError("Invalid XML syntax: " + str(e))`, every other exception
becomes `ValueError("Failed to parse WSDL: " + str(e))`. -/
def wrapParseResult : Except PyExc ServiceInfo → Except PyError ServiceInfo
  | .ok i => .ok i
  | .error (.xmlSyntax m) => .error (.valueError ("Invalid XML syntax: " ++ m))
  | .error (.typeError m) => .error (.valueError ("Failed to parse WSDL: " ++ m))
  | .error (.xpathEval m) => .error (.valueError ("Failed to parse WSDL: " ++ m))

/-- Embeds `WSDLParser.parse`: returns the mutated instance state together with
the public outcome. -/
def parseFull (ns : Namespaces) (input : Input) :
    Namespaces × Except PyError ServiceInfo :=
  let r := parseRaw ns input
  (r.1, wrapParseResult r.2)

/-! ## Generator data model (the dicts built by SwaggerGenerator) -/

/-- A message schema produced by `_generate_input_schema` or
`_generate_output_schema`: the generic open object carries no properties
and no required key; otherwise properties is a dict keyed by the
(possibly None) part names. -/
structure MsgSchema where
  type : String
  properties : Option (List (Option String × PropSchema)) := none
  required : Option (List (Option String)) := none
deriving DecidableEq

/-- The request body dict of an operation spec.  The description and the
required flag are fixed literals; the two XML content entries hold the
synthesized envelope; the application/json entry exists only when added
afterwards for an operation with an input message. -/
structure RequestBody where
  description : String
  required : Bool
  textXmlExample : String
  soapXmlExample : String
  jsonSchema : Option MsgSchema
deriving DecidableEq

/-- One of the two fixed header parameters. -/
structure HeaderParam where
  name : String
  location : String
  description : String
  required : Bool
deriving DecidableEq

/-- The post dict of `_generate_operation_spec`. -/
structure PostSpec where
  tags : List String
  summary : Option String
  description : String
  operationId : Option String
  requestBody : RequestBody
  okXmlExample : String
  okJsonSchema : Option MsgSchema
  faultXmlExample : String
  parameters : List HeaderParam
deriving DecidableEq

/-- A path item: the operation spec dict holds exactly the single key
"post". -/
structure PathItem where
  post : PostSpec
deriving DecidableEq

/-- A property schema inside a component object schema: the plain type
dict, or its array wrapping when the catalog property is an array. -/
inductive CompProp where
  | plain (type : String)
  | arr (itemsType : String)
deriving DecidableEq

/-- One component schema of `_generate_schemas`. -/
inductive ComponentSchema where
  | obj (properties : List (Option String × CompProp))
        (required : Option (List (Option String)))
  | prim (schema : PropSchema)
deriving DecidableEq

/-- The OpenAPI document dict built by `SwaggerGenerator.generate`. -/
structure SwaggerSpec where
  openapi : String
  infoTitle : String
  infoDescription : String
  infoVersion : String
  contactName : String
  servers : List (String × String)
  paths : List (String × PathItem)
  componentSchemas : List (String × ComponentSchema)
  tags : List (String × String)
deriving DecidableEq

/-! ## Generator functions -/

/-- The WHATWG C0-control-or-space characters (codepoints 0x00 through
0x20), which urlsplit strips from the left of its input. -/
def isC0ControlOrSpace (c : Char) : Bool :=
  c.toNat <= 32

/-- Model of the input cleaning of `urllib.parse.urlsplit`: leading
C0-control and space characters are stripped, then every tab, carriage
return and line feed is removed (the unsafe url bytes), in that source
order. -/
def urlsplitClean (url : String) : String :=
  String.mk ((url.data.dropWhile isC0ControlOrSpace).filter
    (fun c => c != '	' && c != '
' && c != '
'))

/-- Model of the scheme extraction of `urllib.parse.urlparse`, applied
to the cleaned input: the text before the first colon is a scheme when
it is nonempty, starts with an ASCII letter and continues with letters,
digits, plus, minus or dot; the scheme is lower-cased and removed from
the url. -/
def urlparseSchemeSplit (rawUrl : String) : String × String :=
  let url := urlsplitClean rawUrl
  if strContains url ':' then
    let before := strTakeWhile url (fun c => c != ':')
    match before.data with
    | [] => ("", url)
    | c :: cs =>
      if c.isAlpha && cs.all (fun ch => ch.isAlphanum || ch == '+' || ch == '-' || ch == '.') then
        (strToLower before, strDrop url (before.length + 1))
      else ("", url)
  else ("", url)

/-- Model of the netloc extraction of `urllib.parse.urlparse`: present
only when the remainder after the scheme starts with two slashes, and
runs up to the next slash, question mark or hash.  The real urlsplit
additionally raises ValueError when the netloc contains square brackets
that are unbalanced (Invalid IPv6 URL) or that enclose an invalid host;
that error path is not modelled here, so every theorem about the server
list carries a bracket-free hypothesis on the port locations, outside of
which the real generate raises instead of producing a document. -/
def urlparseNetloc (rest : String) : String :=
  if ("//".data.isPrefixOf rest.data) then
    strTakeWhile (strDrop rest 2) (fun c => c != '/' && c != '?' && c != '#')
  else ""

/-- Embeds `_extract_base_url`, inner loop over the ports of one service:
a truthy location that parses with both scheme and netloc returns
scheme://netloc immediately; anything else continues the scan. -/
def scanPortsForBase : List ServicePort → Option String
  | [] => none
  | p :: rest =>
    if pyTruthy p.location then
      let loc := p.location.getD ""
      let split := urlparseSchemeSplit loc
      let sch := split.1
      let nl := urlparseNetloc split.2
      if !sch.isEmpty && !nl.isEmpty then some (sch ++ "://" ++ nl)
      else scanPortsForBase rest
    else scanPortsForBase rest

/-- Embeds `_extract_base_url`, outer loop over services. -/
def scanServicesForBase : List ServiceEP → Option String
  | [] => none
  | s :: rest =>
    match scanPortsForBase s.ports with
    | some u => some u
    | none => scanServicesForBase rest

/-- Embeds `_extract_base_url`: when no port location is a valid absolute URL
the function returns the literal "https://example.com". -/
def extractBaseUrl (services : List ServiceEP) : String :=
  (scanServicesForBase services).getD "https://example.com"

/-- Embeds `_generate_soap_example` for the request branch.  The operation
name is looked up with a default of the word Operation, but the key is always present
in parser output, so a None value is interpolated as the text "None". -/
def soapRequestExample (op : Operation) : String :=
  let n := pyStr op.name
  "<?xml version=\"1.0\" encoding=\"UTF-8\"?>\n<soap:Envelope xmlns:soap=\"http://schemas.xmlsoap.org/soap/envelope/\">\n    <soap:Header>\n        <!-- Optional SOAP headers -->\n    </soap:Header>\n    <soap:Body>\n        <" ++ n ++ " xmlns=\"http://example.com/service\">\n            <!-- Request parameters -->\n        </" ++ n ++ ">\n    </soap:Body>\n</soap:Envelope>"

/-- Embeds `_generate_soap_example` for the response branch. -/
def soapResponseExample (op : Operation) : String :=
  let n := pyStr op.name
  "<?xml version=\"1.0\" encoding=\"UTF-8\"?>\n<soap:Envelope xmlns:soap=\"http://schemas.xmlsoap.org/soap/envelope/\">\n    <soap:Body>\n        <" ++ n ++ "Response xmlns=\"http://example.com/service\">\n            <!-- Response data -->\n        </" ++ n ++ "Response>\n    </soap:Body>\n</soap:Envelope>"

/-- Embeds `_generate_soap_fault_example`: a constant envelope. -/
def soapFaultExample : String :=
  "<?xml version=\"1.0\" encoding=\"UTF-8\"?>\n<soap:Envelope xmlns:soap=\"http://schemas.xmlsoap.org/soap/envelope/\">\n    <soap:Body>\n        <soap:Fault>\n            <faultcode>soap:Server</faultcode>\n            <faultstring>Server Error</faultstring>\n            <detail>\n                <!-- Fault details -->\n            </detail>\n        </soap:Fault>\n    </soap:Body>\n</soap:Envelope>"

/-- The effective type string handed to the scalar mapper for a message
part: the type value when truthy, else the element value.  Both keys
are always present in parser output, so the element branch yields the
stored element value (possibly None), never the literal "string". -/
def partEffectiveType (p : PartInfo) : Option String :=
  match p.type with
  | some t => if t.isEmpty then p.element else some t
  | none => p.element

/-- Embeds `_generate_input_schema`: a message without parts gives the generic
open object; otherwise one property per part keyed by the part name
(looked up with the default word parameter; the key is always present in parser
output, so a missing name attribute yields a None key, not the literal
"parameter"), and the required list collects every part name in order. -/
def generateInputSchema (inputMsg : MessageInfo) : MsgSchema :=
  if inputMsg.parts.isEmpty then { type := "object" }
  else
    let properties := inputMsg.parts.foldl (fun acc p =>
      dictInsert acc p.name (mapTypeToOpenapi (partEffectiveType p))) []
    let required := inputMsg.parts.map (fun p => p.name)
    { type := "object",
      properties := some properties,
      required := if required.isEmpty then none else some required }

/-- Embeds `_generate_output_schema`: identical property derivation (fallback
key None for the same reason, the literal "result" being unreachable),
and no required key. -/
def generateOutputSchema (outputMsg : MessageInfo) : MsgSchema :=
  if outputMsg.parts.isEmpty then { type := "object" }
  else
    let properties := outputMsg.parts.foldl (fun acc p =>
      dictInsert acc p.name (mapTypeToOpenapi (partEffectiveType p))) []
    { type := "object",
      properties := some properties }

/-- The two fixed header parameters of every operation spec. -/
def fixedParameters : List HeaderParam :=
  [{ name := "SOAPAction", location := "header",
     description := "SOAP Action header", required := false },
   { name := "Content-Type", location := "header",
     description := "Content type", required := true }]

/-- Embeds `_generate_operation_spec`: the base dict, then the application/json
entries added only when the operation has an input (resp. output)
message. -/
def generateOperationSpec (op : Operation) : PathItem :=
  { post :=
    { tags := ["SOAP Operations"],
      summary := op.name,
      description := pyOrStr op.documentation ("SOAP operation: " ++ pyStr op.name),
      operationId := op.name,
      requestBody :=
        { description := "SOAP request body",
          required := true,
          textXmlExample := soapRequestExample op,
          soapXmlExample := soapRequestExample op,
          jsonSchema := op.input.map generateInputSchema },
      okXmlExample := soapResponseExample op,
      okJsonSchema := op.output.map generateOutputSchema,
      faultXmlExample := soapFaultExample,
      parameters := fixedParameters } }

/-- One component schema from one catalog entry (`_generate_schemas`
body): object schemas for complex types, and the scalar mapper applied
to the already-mapped kind for the other shapes (the complex shape is
the only one whose type field is "object"). -/
def generateComponentSchema (td : TypeDef) : ComponentSchema :=
  match td with
  | .complex props =>
    let properties := props.foldl (fun acc kv =>
      let ps := if kv.2.array then CompProp.arr kv.2.type else CompProp.plain kv.2.type
      dictInsert acc kv.1 ps) []
    let required := (props.filter (fun kv => kv.2.required)).map (fun kv => kv.1)
    .obj properties (if required.isEmpty then none else some required)
  | .simple t _ => .prim (mapTypeToOpenapi (some t))
  | .simpleDefault => .prim (mapTypeToOpenapi (some "string"))
  | .element t _ => .prim (mapTypeToOpenapi (some t))

/-- Embeds `_generate_schemas` over the catalog dict. -/
def generateSchemas (types : List (String × TypeDef)) :
    List (String × ComponentSchema) :=
  types.foldl (fun acc kv => dictInsert acc kv.1 (generateComponentSchema kv.2)) []

/-- The path key: a slash followed by the str rendering of the operation
name. -/
def opPathKey (op : Operation) : String :=
  "/" ++ pyStr op.name

/-- The paths loop of `generate`: dict assignments over the original,
non-deduplicated operation list. -/
def generatePaths (ops : List Operation) : List (String × PathItem) :=
  ops.foldl (fun acc op => dictInsert acc (opPathKey op) (generateOperationSpec op)) []

/-- Embeds `SwaggerGenerator.generate`.  The name and description keys are
always present in parser output, so their `.get` defaults are inert; the
servers list is built from `_extract_base_url`, whose result is tested
for truthiness. -/
def generate (wsdlData : ServiceInfo) : SwaggerSpec :=
  let baseUrl := extractBaseUrl wsdlData.services
  { openapi := "3.0.0",
    infoTitle := wsdlData.name,
    infoDescription := wsdlData.description,
    infoVersion := "1.0.0",
    contactName := "API Support",
    servers := if baseUrl.isEmpty then [] else [(baseUrl, "SOAP Service Endpoint")],
    paths := generatePaths wsdlData.operations,
    componentSchemas := generateSchemas wsdlData.types,
    tags := [("SOAP Operations", "SOAP web service operations")] }

/-! ## Claim-side formalisations and concrete inputs -/

/-- Formalisation of the C4 claim rule as amended: the raw (untrimmed)
text of the first documentation element when it has truthy text, the
literal "No description available" when the element exists without
truthy text, the default otherwise. -/
def claimC4DescriptionRule (root : XNode) : String :=
  match xfindAll "wsdl:documentation" root with
  | d :: _ =>
    match d.text with
    | some t => if t.isEmpty then "No description available" else t
    | none => "No description available"
  | [] => "SOAP Web Service converted from WSDL"

/-- Formalisation of "the definitions encountered during traversal of
the document, in document order" for C8: every named complex type,
simple type or element declaration inside a schema, in document
(preorder) position, paired with its parsed definition. -/
def typeDefsInDocOrder (root : XNode) : List (String × TypeDef) :=
  (xfindAll "xsd:schema" root).flatMap (fun schema =>
    schema.descendants.filterMap (fun n =>
      if n.tag == "xsd:complexType" then
        match xattr n "name" with
        | some nm => if nm.isEmpty then none else some (nm, parseComplexTypeOf n)
        | none => none
      else if n.tag == "xsd:simpleType" then
        match xattr n "name" with
        | some nm => if nm.isEmpty then none else some (nm, parseSimpleTypeOf n)
        | none => none
      else if n.tag == "xsd:element" then
        match xattr n "name" with
        | some nm => if nm.isEmpty then none else some (nm, parseElementOf n)
        | none => none
      else none))

/-- Two operations sharing the name "Foo" with different documentation
(so their generated specs differ). -/
def sampleOpA : Operation :=
  { name := some "Foo", documentation := some "first port type",
    input := none, output := none, faults := [] }

def sampleOpB : Operation :=
  { name := some "Foo", documentation := some "second port type",
    input := none, output := none, faults := [] }

def sampleDupInfo : ServiceInfo :=
  { name := "S", description := "d", targetNamespace := none,
    operations := [sampleOpA, sampleOpB], types := [], bindings := [],
    services := [] }

/-- A well-formed document whose first documentation element carries the
text " hi " with surrounding whitespace. -/
def c4doc : XNode :=
  XNode.mk "wsdl:definitions" [("targetNamespace", "urn:x")] none
    [XNode.mk "wsdl:documentation" [] (some " hi ") []]

/-- The descriptor that parsing `c4doc` produces. -/
def c4expected : ServiceInfo :=
  { name := "UnknownService", description := " hi ",
    targetNamespace := some "urn:x",
    operations := [], types := [], bindings := [], services := [] }

/-- A message with a single part that has no name attribute, an empty
type attribute, and an element attribute naming xsd:int. -/
def c6msg : MessageInfo :=
  { name := some "M",
    parts := [{ name := none, element := some "xsd:int", type := some "" }] }

/-- A well-formed document whose root carries a targetNamespace. -/
def c7docA : XNode :=
  XNode.mk "wsdl:definitions" [("targetNamespace", "urn:a")] none []

/-- A well-formed document whose root has no targetNamespace. -/
def c7docB : XNode :=
  XNode.mk "wsdl:definitions" [] none []

/-- A schema declaring a top-level element "Foo" first and a complex
type "Foo" second, in that document order. -/
def c8root : XNode :=
  XNode.mk "wsdl:definitions" [("targetNamespace", "urn:x")] none
    [XNode.mk "wsdl:types" [] none
      [XNode.mk "xsd:schema" [] none
        [XNode.mk "xsd:element" [("name", "Foo"), ("type", "xsd:int")] none [],
         XNode.mk "xsd:complexType" [("name", "Foo")] none []]]]

/-! ## Lemmas about the dict model -/

theorem lookup_mapReplace {α β : Type} [BEq α] [LawfulBEq α]
    (m : List (α × β)) (k n : α) (v : β) :
    List.lookup n (m.map (fun p => if p.1 == k then (k, v) else p)) =
      if k == n then (List.lookup k m).map (fun _ => v) else List.lookup n m := by
  induction m with
  | nil =>
    by_cases h : k = n <;> simp [h, List.lookup]
  | cons p t ih =>
    obtain ⟨a, b⟩ := p
    simp only [List.map_cons]
    by_cases hp : a = k
    · subst hp
      have hcell : (if ((a == a) = true) then (a, v) else (a, b)) = (a, v) :=
        if_pos (by simp)
      rw [hcell]
      by_cases hn : a = n
      · subst hn
        simp [List.lookup, ih]
      · have h1 : (n == a) = false := beq_eq_false_iff_ne.mpr (Ne.symm hn)
        have h2 : (a == n) = false := beq_eq_false_iff_ne.mpr hn
        simp [List.lookup, ih, h1, h2]
    · have hpf : (a == k) = false := beq_eq_false_iff_ne.mpr hp
      have hcell : (if ((a == k) = true) then (k, v) else (a, b)) = (a, b) := by
        rw [hpf]; simp
      rw [hcell]
      by_cases hn : k = n
      · subst hn
        have h1 : (k == a) = false := beq_eq_false_iff_ne.mpr (Ne.symm hp)
        simp [List.lookup, ih, hpf, h1]
      · have h2 : (k == n) = false := beq_eq_false_iff_ne.mpr hn
        by_cases hna : n = a
        · subst hna
          simp [List.lookup, ih, hpf, h2]
        · have h3 : (n == a) = false := beq_eq_false_iff_ne.mpr hna
          simp [List.lookup, ih, hpf, h2, h3]

theorem any_key_lookup_isSome {α β : Type} [BEq α] [LawfulBEq α]
    (m : List (α × β)) (k : α) :
    m.any (fun p => p.1 == k) = true → (List.lookup k m).isSome = true := by
  induction m with
  | nil => simp
  | cons p t ih =>
    obtain ⟨a, b⟩ := p
    intro h
    by_cases hp : a = k
    · subst hp; simp [List.lookup]
    · have h1 : (k == a) = false := beq_eq_false_iff_ne.mpr (Ne.symm hp)
      have h2 : (a == k) = false := beq_eq_false_iff_ne.mpr hp
      simp only [List.any_cons, h2, Bool.false_or] at h
      simp [List.lookup, h1, ih h]

theorem lookup_eq_none_of_not_any {α β : Type} [BEq α] [LawfulBEq α]
    (m : List (α × β)) (k : α) :
    m.any (fun p => p.1 == k) = false → List.lookup k m = none := by
  induction m with
  | nil => simp [List.lookup]
  | cons p t ih =>
    obtain ⟨a, b⟩ := p
    intro h
    simp only [List.any_cons, Bool.or_eq_false_iff] at h
    have h1 : (k == a) = false :=
      beq_eq_false_iff_ne.mpr (Ne.symm (beq_eq_false_iff_ne.mp h.1))
    simp [List.lookup, h1, ih h.2]

theorem lookup_append_pairs {α β : Type} [BEq α]
    (l1 l2 : List (α × β)) (n : α) :
    List.lookup n (l1 ++ l2) =
      match List.lookup n l1 with
      | some v => some v
      | none => List.lookup n l2 := by
  induction l1 with
  | nil => simp [List.lookup]
  | cons p t ih =>
    obtain ⟨a, b⟩ := p
    cases hp : (n == a) <;> simp [List.lookup, hp, ih]

theorem lookup_dictInsert {α β : Type} [BEq α] [LawfulBEq α]
    (m : List (α × β)) (k n : α) (v : β) :
    List.lookup n (dictInsert m k v) = if k == n then some v else List.lookup n m := by
  unfold dictInsert
  by_cases hmem : m.any (fun p => p.1 == k) = true
  · rw [if_pos hmem, lookup_mapReplace]
    by_cases h : k = n
    · have hs := any_key_lookup_isSome m k hmem
      rcases hl : List.lookup k m with _ | w
      · rw [hl] at hs; simp at hs
      · simp [h, hl]
    · simp [h]
  · rw [if_neg hmem, lookup_append_pairs]
    have hmemf : m.any (fun p => p.1 == k) = false := by
      cases hh : m.any (fun p => p.1 == k)
      · rfl
      · exact absurd hh hmem
    have hnone : List.lookup k m = none := lookup_eq_none_of_not_any m k hmemf
    by_cases h : k = n
    · subst h
      simp [hnone, List.lookup]
    · have h1 : (n == k) = false := beq_eq_false_iff_ne.mpr (Ne.symm h)
      have h2 : (k == n) = false := beq_eq_false_iff_ne.mpr h
      rcases hl : List.lookup n m with _ | w <;> simp [List.lookup, h1, h2, hl]

theorem lookup_dictOfEvents {α β : Type} [BEq α] [LawfulBEq α]
    (l : List (α × β)) (init : List (α × β)) (n : α) :
    List.lookup n (dictOfEvents l init) =
      l.foldl (fun acc kv => if kv.1 == n then some kv.2 else acc)
        (List.lookup n init) := by
  induction l generalizing init with
  | nil => rfl
  | cons kv t ih =>
    simp only [dictOfEvents, List.foldl_cons]
    rw [show (List.foldl (fun acc kv => dictInsert acc kv.1 kv.2)
          (dictInsert init kv.1 kv.2) t) = dictOfEvents t (dictInsert init kv.1 kv.2) from rfl]
    rw [ih, lookup_dictInsert]

theorem foldl_lastPick {α β : Type} [BEq α]
    (n : α) (l : List (α × β)) (a : Option β) :
    l.foldl (fun acc kv => if kv.1 == n then some kv.2 else acc) a =
      match (l.filter (fun kv => kv.1 == n)).getLast? with
      | some kv => some kv.2
      | none => a := by
  induction l generalizing a with
  | nil => rfl
  | cons kv t ih =>
    simp only [List.foldl_cons, List.filter_cons]
    cases hk : (kv.1 == n) with
    | false =>
      simp only [hk, Bool.false_eq_true, if_false]
      exact ih a
    | true =>
      simp only [hk, if_true]
      rw [ih]
      rcases hlast : (t.filter (fun kv => kv.1 == n)).getLast? with _ | w
      · rw [List.getLast?_cons]
        simp [hlast]
      · rw [List.getLast?_cons]
        simp [hlast]

theorem length_dictInsert_le {α β : Type} [BEq α]
    (m : List (α × β)) (k : α) (v : β) :
    (dictInsert m k v).length ≤ m.length + 1 := by
  unfold dictInsert
  by_cases hmem : m.any (fun p => p.1 == k) = true
  · simp [hmem]
  · simp [hmem]

theorem length_dictOfEvents_le {α β : Type} [BEq α]
    (l : List (α × β)) (init : List (α × β)) :
    (dictOfEvents l init).length ≤ init.length + l.length := by
  induction l generalizing init with
  | nil => simp [dictOfEvents]
  | cons kv t ih =>
    simp only [dictOfEvents, List.foldl_cons, List.length_cons]
    calc (dictOfEvents t (dictInsert init kv.1 kv.2)).length
        ≤ (dictInsert init kv.1 kv.2).length + t.length := ih (dictInsert init kv.1 kv.2)
      _ ≤ (init.length + 1) + t.length := by
          exact Nat.add_le_add_right (length_dictInsert_le init kv.1 kv.2) t.length
      _ = init.length + (t.length + 1) := by omega

theorem mem_dictInsert {α β : Type} [BEq α] [LawfulBEq α]
    (m : List (α × β)) (k : α) (v : β) (p : α × β) :
    p ∈ dictInsert m k v → p ∈ m ∨ p = (k, v) := by
  unfold dictInsert
  by_cases hmem : m.any (fun q => q.1 == k) = true
  · simp only [hmem, if_true]
    intro hp
    rcases List.mem_map.mp hp with ⟨q, hq, hfq⟩
    by_cases hqk : q.1 = k
    · right
      rw [← hfq]
      simp [hqk]
    · left
      rw [← hfq]
      have : (q.1 == k) = false := beq_eq_false_iff_ne.mpr hqk
      simpa [this] using hq
  · simp only [hmem, if_false]
    intro hp
    rcases List.mem_append.mp hp with h | h
    · exact Or.inl h
    · right
      simpa using h

theorem mem_dictOfEvents {α β : Type} [BEq α] [LawfulBEq α]
    (l : List (α × β)) (init : List (α × β)) (p : α × β) :
    p ∈ dictOfEvents l init → p ∈ init ∨ p ∈ l := by
  induction l generalizing init with
  | nil => intro h; exact Or.inl h
  | cons kv t ih =>
    intro h
    rcases ih (dictInsert init kv.1 kv.2) h with h2 | h2
    · rcases mem_dictInsert init kv.1 kv.2 p h2 with h3 | h3
      · exact Or.inl h3
      · right; rw [h3]; exact List.mem_cons_self kv t
    · right; exact List.mem_cons_of_mem kv h2

theorem dictOfEvents_append {α β : Type} [BEq α]
    (l1 l2 : List (α × β)) (init : List (α × β)) :
    dictOfEvents (l1 ++ l2) init = dictOfEvents l2 (dictOfEvents l1 init) := by
  simp [dictOfEvents, List.foldl_append]

theorem generatePaths_eq_events (ops : List Operation) :
    generatePaths ops =
      dictOfEvents (ops.map (fun op => (opPathKey op, generateOperationSpec op))) [] := by
  simp [generatePaths, dictOfEvents, List.foldl_map]

theorem lookup_generatePaths (ops : List Operation) (n : String) :
    List.lookup n (generatePaths ops) =
      ((ops.filter (fun op => opPathKey op == n)).getLast?).map generateOperationSpec := by
  rw [generatePaths_eq_events, lookup_dictOfEvents, foldl_lastPick]
  rw [show List.lookup n ([] : List (String × PathItem)) = none from rfl]
  rw [List.filter_map]
  rw [List.getLast?_map]
  rw [show ((fun kv : String × PathItem => kv.1 == n) ∘
        (fun op => (opPathKey op, generateOperationSpec op))) =
      (fun op => opPathKey op == n) from rfl]
  rcases h : (ops.filter (fun op => opPathKey op == n)).getLast? with _ | op
  · rfl
  · rfl

theorem foldl_dictOfEvents_flatMap {α β γ : Type} [BEq α] (f : γ → List (α × β)) :
    ∀ (ss : List γ) (init : List (α × β)),
      ss.foldl (fun acc s => dictOfEvents (f s) acc) init =
        dictOfEvents (ss.flatMap f) init := by
  intro ss
  induction ss with
  | nil => intro init; rfl
  | cons s t ih =>
    intro init
    simp only [List.foldl_cons, List.flatMap_cons]
    rw [ih, dictOfEvents_append]

theorem extractTypesOf_eq_events (root : XNode) :
    extractTypesOf root = dictOfEvents (allTypeEvents root) [] := by
  unfold extractTypesOf allTypeEvents
  exact foldl_dictOfEvents_flatMap schemaTypeEvents (xfindAll "xsd:schema" root) []

theorem wrapParseResult_ok_iff (r : Except PyExc ServiceInfo) (i : ServiceInfo) :
    wrapParseResult r = Except.ok i ↔ r = Except.ok i := by
  cases r with
  | ok j => simp [wrapParseResult]
  | error e => cases e <;> simp [wrapParseResult]

theorem serviceDescriptionOf_eq_rule (root : XNode) :
    serviceDescriptionOf root = claimC4DescriptionRule root := by
  unfold serviceDescriptionOf claimC4DescriptionRule
  cases h : xfindAll "wsdl:documentation" root with
  | nil => rfl
  | cons d rest =>
    cases ht : d.text with
    | none => rfl
    | some t =>
      by_cases he : t.isEmpty = true <;> simp [pyOrStr, he]

/-! ## Claim theorems -/

/-- C2, evaluation at the failing inputs: the table keys dateTime,
base64Binary, hexBinary and anyURI are compared against the lower-cased
input and can never match, so those four canonical names fall through to
the plain string schema with no format, contradicting the documented
pairs; the lower-case keys such as int still work. -/
theorem claim_C2_failing_eval :
    mapTypeToOpenapi (some "dateTime") = { type := "string", format := none } ∧
    mapTypeToOpenapi (some "base64Binary") = { type := "string", format := none } ∧
    mapTypeToOpenapi (some "hexBinary") = { type := "string", format := none } ∧
    mapTypeToOpenapi (some "anyURI") = { type := "string", format := none } ∧
    mapTypeToOpenapi (some "xsd:dateTime") = { type := "string", format := none } ∧
    mapTypeToOpenapi (some "int") = { type := "integer", format := some "int32" } ∧
    mapTypeToOpenapi (some "") = { type := "string", format := none } ∧
    mapTypeToOpenapi (some "unknownType") = { type := "string", format := none } := by
  refine ⟨?_, ?_, ?_, ?_, ?_, ?_, ?_, ?_⟩ <;> decide

/-- C3: the path map has at most as many entries as there are collected
operations; looking up any key yields the spec generated from the last
operation (in document traversal order) whose path key matches, so later
duplicate names overwrite earlier ones; and every entry of the map is
keyed by the path key of one of the operations with a single POST path
item generated from it. -/
theorem claim_C3 (d : ServiceInfo) :
    (generate d).paths.length ≤ d.operations.length ∧
    (∀ n, List.lookup n (generate d).paths =
      ((d.operations.filter (fun op => opPathKey op == n)).getLast?).map
        generateOperationSpec) ∧
    (∀ p, p ∈ (generate d).paths →
      ∃ op, op ∈ d.operations ∧ p.1 = opPathKey op ∧
        p.2 = generateOperationSpec op) := by
  have hproj : (generate d).paths = generatePaths d.operations := rfl
  refine ⟨?_, ?_, ?_⟩
  · rw [hproj, generatePaths_eq_events]
    have := length_dictOfEvents_le
      (d.operations.map (fun op => (opPathKey op, generateOperationSpec op))) []
    simpa using this
  · intro n
    rw [hproj, lookup_generatePaths]
  · intro p hp
    rw [hproj, generatePaths_eq_events] at hp
    rcases mem_dictOfEvents _ _ _ hp with h | h
    · exact absurd h (List.not_mem_nil p)
    · rcases List.mem_map.mp h with ⟨op, hop, hpair⟩
      exact ⟨op, hop, by rw [← hpair], by rw [← hpair]⟩

/-- C3 witness: in a descriptor with two operations both named "Foo",
the single surviving path entry is keyed "/Foo" and holds the spec of
the second (later) operation. -/
theorem claim_C3_witness :
    ∃ op, op ∈ sampleDupInfo.operations ∧
      (("/Foo" : String), generateOperationSpec sampleOpB).1 = opPathKey op ∧
      (("/Foo" : String), generateOperationSpec sampleOpB).2 =
        generateOperationSpec op :=
  (claim_C3 sampleDupInfo).2.2 ("/Foo", generateOperationSpec sampleOpB)
    (by exact List.Mem.head _)

/-- C4, counterexample: parsing a document whose first documentation
element has the text " hi " (surrounding whitespace included) yields
exactly that untrimmed text as the service description, not the trimmed
form the claim states. -/
theorem claim_C4_counterexample :
    (parseFull initNamespaces (Input.wellFormed c4doc)).2 = Except.ok c4expected ∧
    c4expected.description ≠ pyStrip " hi " := by
  constructor
  · decide
  · decide

/-- C4 as amended: for every successfully parsed document the service
description equals the raw (untrimmed) text of the first documentation
element found anywhere in the document when that text is truthy, the
literal "No description available" when the element exists without
truthy text, and the literal "SOAP Web Service converted from WSDL" when
no documentation element exists. -/
theorem claim_C4 (ns : Namespaces) (root : XNode) (i : ServiceInfo)
    (h : (parseFull ns (Input.wellFormed root)).2 = Except.ok i) :
    i.description = claimC4DescriptionRule root := by
  have h0 : (parseFull ns (Input.wellFormed root)).2 =
      wrapParseResult (parseRaw ns (Input.wellFormed root)).2 := rfl
  rw [h0, wrapParseResult_ok_iff] at h
  simp only [parseRaw] at h
  rcases hname : getServiceName
      (if pyTruthy (xattr root "targetNamespace") = true
       then { tns := xattr root "targetNamespace" } else ns) root with e | name <;>
    rw [hname] at h
  · exact Except.noConfusion h
  rcases hdesc : getServiceDescription
      (if pyTruthy (xattr root "targetNamespace") = true
       then { tns := xattr root "targetNamespace" } else ns) root with e | desc <;>
    rw [hdesc] at h
  · exact Except.noConfusion h
  rcases hops : extractOperations
      (if pyTruthy (xattr root "targetNamespace") = true
       then { tns := xattr root "targetNamespace" } else ns) root with e | ops <;>
    rw [hops] at h
  · exact Except.noConfusion h
  rcases htys : extractTypes
      (if pyTruthy (xattr root "targetNamespace") = true
       then { tns := xattr root "targetNamespace" } else ns) root with e | tys <;>
    rw [htys] at h
  · exact Except.noConfusion h
  rcases hbs : extractBindings
      (if pyTruthy (xattr root "targetNamespace") = true
       then { tns := xattr root "targetNamespace" } else ns) root with e | bs <;>
    rw [hbs] at h
  · exact Except.noConfusion h
  rcases hsvs : extractServices
      (if pyTruthy (xattr root "targetNamespace") = true
       then { tns := xattr root "targetNamespace" } else ns) root with e | svs <;>
    rw [hsvs] at h
  · exact Except.noConfusion h
  have hi : i = ServiceInfo.mk name desc (xattr root "targetNamespace")
      ops tys bs svs := by
    cases h
    rfl
  have hdesc2 : desc = serviceDescriptionOf root := by
    unfold getServiceDescription at hdesc
    rcases hck : xpathNsCheck
        (if pyTruthy (xattr root "targetNamespace") = true
         then { tns := xattr root "targetNamespace" } else ns) with e | u <;>
      rw [hck] at hdesc
    · exact Except.noConfusion hdesc
    · cases hdesc
      rfl
  rw [hi]
  simpa [hdesc2] using serviceDescriptionOf_eq_rule root

/-- C4 witness: the amended description rule instantiated on the
concrete document c4doc. -/
theorem claim_C4_witness :
    c4expected.description = claimC4DescriptionRule c4doc :=
  claim_C4 initNamespaces c4doc c4expected (by decide)

/-- C6, counterexample: for a message whose single part has no name
attribute, an empty type attribute and element xsd:int, the generated
input schema keys the property by the None part name (the "parameter"
fallback is unreachable because parsed parts always carry the name key)
and types it from the element attribute, not from the empty-but-present
type attribute as the claim reads. -/
theorem claim_C6_counterexample :
    (generateInputSchema c6msg).properties =
      some [(none, { type := "integer", format := some "int32" })] ∧
    (generateInputSchema c6msg).properties ≠
      some [(some "parameter", ({ type := "string", format := none } : PropSchema))] := by
  constructor
  · decide
  · decide

/-- C6 as amended: a message without parts yields the generic open
object schema from both schema generators.  Otherwise the input schema
is an object whose properties form a dict (later duplicate part names
overwrite earlier ones) keyed by the stored part names — the None key
when the part has no name attribute, the "parameter" and "result"
fallbacks being unreachable — each typed by the scalar mapper applied to
the part type attribute when truthy, else the stored element attribute
value; the required list collects every part name in order, and the
output schema derives identical properties but never carries a required
key. -/
theorem claim_C6 (m : MessageInfo) :
    generateInputSchema m =
      (if m.parts.isEmpty then { type := "object" }
       else
        { type := "object",
          properties := some (dictOfEvents
            (m.parts.map (fun p => (p.name, mapTypeToOpenapi (partEffectiveType p)))) []),
          required := some (m.parts.map (fun p => p.name)) }) ∧
    (generateOutputSchema m).properties = (generateInputSchema m).properties ∧
    (generateOutputSchema m).required = none ∧
    (generateOutputSchema m).type = "object" := by
  by_cases hp : m.parts.isEmpty = true
  · refine ⟨?_, ?_, ?_, ?_⟩ <;>
      simp [generateInputSchema, generateOutputSchema, hp]
  · have hmap : (m.parts.map (fun p => p.name)).isEmpty = false := by
      rcases hl : m.parts with _ | ⟨p, rest⟩
      · rw [hl] at hp; exact absurd rfl hp
      · rfl
    refine ⟨?_, ?_, ?_, ?_⟩
    · simp only [generateInputSchema, hp, Bool.false_eq_true, if_false, hmap]
      rw [show dictOfEvents
            (m.parts.map (fun p => (p.name, mapTypeToOpenapi (partEffectiveType p)))) [] =
          m.parts.foldl (fun acc p =>
            dictInsert acc p.name (mapTypeToOpenapi (partEffectiveType p))) [] from by
        simp [dictOfEvents, List.foldl_map]]
    · simp only [generateInputSchema, generateOutputSchema, hp, Bool.false_eq_true,
        if_false]
    · simp [generateOutputSchema, hp]
    · simp [generateOutputSchema, hp]

/-- C7, counterexample: the namespaces mapping is instance state mutated
by parse, and the tns binding set by an earlier document persists; a
document without targetNamespace fails on a fresh parser (every xpath
call raises TypeError on the None tns URI, wrapped as ValueError) yet
succeeds on the same parser after it parsed a document carrying a
targetNamespace — the result is not determined by the document alone. -/
theorem claim_C7_counterexample :
    (parseFull initNamespaces (Input.wellFormed c7docB)).2 ≠
      (parseFull (parseFull initNamespaces (Input.wellFormed c7docA)).1
        (Input.wellFormed c7docB)).2 := by
  decide

/-- C7 as amended: determinism holds only for documents carrying a
truthy targetNamespace — for those the tns binding is overwritten before
any xpath call, so the outcome (and resulting parser state) is the same
whatever was parsed before. -/
theorem claim_C7 (ns : Namespaces) (root : XNode)
    (h : pyTruthy (xattr root "targetNamespace") = true) :
    parseFull ns (Input.wellFormed root) =
      parseFull initNamespaces (Input.wellFormed root) := by
  simp [parseFull, parseRaw, h]

/-- C7 witness: the amended determinism instantiated at a document with
a targetNamespace and a parser state carrying a stale binding. -/
theorem claim_C7_witness :
    pyTruthy (xattr c7docA "targetNamespace") = true ∧
    parseFull { tns := some "urn:stale" } (Input.wellFormed c7docA) =
      parseFull initNamespaces (Input.wellFormed c7docA) :=
  ⟨by decide, claim_C7 { tns := some "urn:stale" } c7docA (by decide)⟩

/-- C8, counterexample: in a schema declaring element Foo before complex
type Foo, the definition encountered last in document traversal order is
the complex type, yet the final catalog holds the element parse — the
extraction processes all complex types, then all simple types, then all
elements, so the claimed document-order last-seen-wins fails. -/
theorem claim_C8_counterexample :
    ((typeDefsInDocOrder c8root).filter (fun kv => kv.1 == "Foo")).getLast? =
      some ("Foo", TypeDef.complex []) ∧
    List.lookup "Foo" (extractTypesOf c8root) =
      some (TypeDef.element "integer" "xsd:int") ∧
    TypeDef.element "integer" "xsd:int" ≠ TypeDef.complex [] := by
  refine ⟨?_, ?_, ?_⟩ <;> decide

/-- C8 as amended: collisions are resolved last-seen-wins in the order
of the extraction pass — per schema all complex types, then all simple
types, then all element declarations, each group in document order and
schemas in document order — which is what allTypeEvents lists; the final
catalog value for any name is the parse of the last such event. -/
theorem claim_C8 (root : XNode) (n : String) :
    List.lookup n (extractTypesOf root) =
      ((allTypeEvents root).filter (fun kv => kv.1 == n)).getLast?.map
        (fun kv => kv.2) := by
  rw [extractTypesOf_eq_events, lookup_dictOfEvents, foldl_lastPick]
  rw [show List.lookup n ([] : List (String × TypeDef)) = none from rfl]
  rcases h : ((allTypeEvents root).filter (fun kv => kv.1 == n)).getLast? with _ | kv
  · rw [h]; rfl
  · rw [h]; rfl

theorem lookup_map_value {α β γ : Type} [BEq α]
    (l : List (α × β)) (f : β → γ) (k : α) :
    List.lookup k (l.map (fun p => (p.1, f p.2))) = (List.lookup k l).map f := by
  induction l with
  | nil => rfl
  | cons p t ih =>
    obtain ⟨a, b⟩ := p
    cases hk : (k == a) <;> simp [List.lookup, hk, ih]

theorem xsdTable_eq_mapped :
    xsdTypeTable = openapiTypeTable.map (fun p => (p.1, p.2.type)) := by
  rfl

/-- C9: the two scalar mapping tables are kind-aligned — for every input
string the kind produced by the parser mapper equals the type field of
the schema produced by the generator mapper (both share the same keys,
the same prefix stripping and the same lower-casing, and the dead
mixed-case entries of both tables agree with the shared default). -/
theorem claim_C9 (s : String) :
    mapXsdType s = (mapTypeToOpenapi (some s)).type := by
  unfold mapXsdType mapTypeToOpenapi
  by_cases he : s.isEmpty = true
  · simp [he]
  · simp only [he, Bool.false_eq_true, if_false]
    rw [xsdTable_eq_mapped, lookup_map_value]
    rcases h : List.lookup
        (strToLower (if strContains s ':' = true then pySplitColonSecond s else s))
        openapiTypeTable with _ | p
    · rfl
    · rfl

/-- C10: the parse entry point either returns a descriptor or raises
exactly a ValueError — an XML syntax error surfaces with the prefix
"Invalid XML syntax: " and every other internal failure with the prefix
"Failed to parse WSDL: "; no other exception type escapes. -/
theorem claim_C10 (ns : Namespaces) (input : Input) :
    (∃ i, (parseFull ns input).2 = Except.ok i) ∨
    (∃ m, (parseFull ns input).2 =
      Except.error (PyError.valueError ("Invalid XML syntax: " ++ m))) ∨
    (∃ m, (parseFull ns input).2 =
      Except.error (PyError.valueError ("Failed to parse WSDL: " ++ m))) := by
  have h0 : (parseFull ns input).2 = wrapParseResult (parseRaw ns input).2 := rfl
  rw [h0]
  rcases (parseRaw ns input).2 with e | i
  · cases e with
    | xmlSyntax m => exact Or.inr (Or.inl ⟨m, rfl⟩)
    | typeError m => exact Or.inr (Or.inr ⟨m, rfl⟩)
    | xpathEval m => exact Or.inr (Or.inr ⟨m, rfl⟩)
  · exact Or.inl ⟨i, rfl⟩
